import Mathlib

/-!
Shallow embedding of `snapchat_gui.py` (Snapchat-All-Memories-GUI).

Conventions used throughout:
- Python `datetime` values are modelled as a record of calendar fields
  (`PyDateTime`); only `strftime` formatting matters to the program.
- Python floats are modelled as rationals (`ℚ`).  Every float comparison the
  program performs (`> 0.3`, `< 1.5`, `>= 0`) is exact at the ratios the
  program can produce, so the rational model agrees with the float code.
- Fallible Python code (anything that can raise) is modelled with `Except`;
  a `try/except` block becomes a `match` on the `Except` value.
- The network, the filesystem and the `exif` library are modelled as oracle
  functions supplied in an environment record (`Env`), so theorems quantify
  over every possible behaviour of those collaborators.
-/

/-- Calendar fields of a Python `datetime` (the program only formats them). -/
structure PyDateTime where
  year : Nat
  month : Nat
  day : Nat
  hour : Nat
  minute : Nat
  second : Nat
deriving Repr, DecidableEq

/-- Zero-pad a number to two digits, as `strftime` does for `%m %d %H %M %S`. -/
def pad2 (n : Nat) : String :=
  if n < 10 then "0" ++ toString n else toString n

/-- Zero-pad a number to four digits, as `strftime` does for `%Y`. -/
def pad4 (n : Nat) : String :=
  if n < 10 then "000" ++ toString n
  else if n < 100 then "00" ++ toString n
  else if n < 1000 then "0" ++ toString n
  else toString n

/-- `date.strftime("%Y-%m-%d_%H-%M-%S")` — the canonical file name stem. -/
def strftimeFileStem (d : PyDateTime) : String :=
  pad4 d.year ++ "-" ++ pad2 d.month ++ "-" ++ pad2 d.day ++ "_" ++
    pad2 d.hour ++ "-" ++ pad2 d.minute ++ "-" ++ pad2 d.second

/-- `date.strftime("%Y:%m:%d %H:%M:%S")` — the EXIF datetime format. -/
def strftimeExif (d : PyDateTime) : String :=
  pad4 d.year ++ ":" ++ pad2 d.month ++ ":" ++ pad2 d.day ++ " " ++
    pad2 d.hour ++ ":" ++ pad2 d.minute ++ ":" ++ pad2 d.second

/-- The `Memory` pydantic model: one downloadable record. -/
structure MemoryRec where
  date : PyDateTime
  download_link : String
  location : String := ""
  latitude : Option ℚ := none
  longitude : Option ℚ := none
deriving Repr, DecidableEq

/-- `Memory.filename` property: `self.date.strftime("%Y-%m-%d_%H-%M-%S")`. -/
def MemoryRec.filename (m : MemoryRec) : String :=
  strftimeFileStem m.date

/-- Character class of the regex `[-\d.]`. -/
def isClassChar (c : Char) : Bool :=
  c = '-' || c.isDigit || c = '.'

/-- Python regex `\s` on the ASCII range: space, tab, LF, CR, VT, FF. -/
def isPySpace (c : Char) : Bool :=
  c = ' ' || c = '\t' || c = '\n' || c = '\r' || c = '\x0b' || c = '\x0c'

/--
Attempt to match the regex `([-\d.]+),\s*([-\d.]+)` anchored at the head of
the character list.  Because `,` is not in the class `[-\d.]`, the greedy
`[-\d.]+` can only succeed with its maximal run, so no further backtracking
arises.  Returns the two captured groups.
-/
def matchAt (l : List Char) : Option (List Char × List Char) :=
  let p1 := l.span isClassChar
  if p1.1 = [] then none
  else
    match p1.2 with
    | ',' :: rest =>
      let afterSpace := rest.dropWhile isPySpace
      let p2 := afterSpace.span isClassChar
      if p2.1 = [] then none else some (p1.1, p2.1)
    | _ => none

/-- `re.search` tries every start position from the left. -/
def searchFrom : List Char → Option (List Char × List Char)
  | [] => none
  | c :: rest =>
    match matchAt (c :: rest) with
    | some r => some r
    | none => searchFrom rest

/-- `re.search(r"([-\d.]+),\s*([-\d.]+)", s)`: leftmost match's two groups. -/
def regexSearch (s : String) : Option (String × String) :=
  (searchFrom s.toList).map (fun r => (String.mk r.1, String.mk r.2))

/-- Numeric value of a digit list (most significant first). -/
def digitsVal (l : List Char) : ℚ :=
  l.foldl (fun a c => a * 10 + (((c.toNat - 48) : Nat) : ℚ)) 0

/--
Python `float(s)` restricted to strings over the class `[-\d.]` (the only
strings the regex groups can be): an optional leading `-`, then digits with
at most one `.` and at least one digit.  `none` models a `ValueError`.
-/
def parseFloatQ (s : String) : Option ℚ :=
  let (sgn, l) :=
    match s.toList with
    | '-' :: rest => ((-1 : ℚ), rest)
    | l => ((1 : ℚ), l)
  let p := l.span Char.isDigit
  match p.2 with
  | [] => if p.1 = [] then none else some (sgn * digitsVal p.1)
  | '.' :: rest =>
    if rest.all Char.isDigit ∧ (p.1 ≠ [] ∨ rest ≠ []) then
      some (sgn * (digitsVal p.1 + digitsVal rest / ((10 : ℚ) ^ rest.length)))
    else none
  | _ => none

/-- Python truthiness of the `latitude` float field: `None` and `0.0` are falsy. -/
def latFalsy : Option ℚ → Bool
  | none => true
  | some q => q = 0

/--
`Memory.model_post_init`: if `self.location and not self.latitude`, search the
location string with the coordinate regex and, on a match, set latitude and
longitude to `float` of the two groups.  A `ValueError` from `float` escapes
the constructor, so construction itself fails (`Except.error`).
-/
def model_post_init (m : MemoryRec) : Except String MemoryRec :=
  if m.location ≠ "" ∧ latFalsy m.latitude = true then
    match regexSearch m.location with
    | some (g1, g2) =>
      match parseFloatQ g1, parseFloatQ g2 with
      | some la, some lo => .ok { m with latitude := some la, longitude := some lo }
      | _, _ => .error "ValueError: could not convert string to float"
    | none => .ok m
  else .ok m

/-- Constructing a `Memory` from archive input runs `model_post_init` once. -/
def mkMemory (date : PyDateTime) (download_link location : String)
    (latitude longitude : Option ℚ) : Except String MemoryRec :=
  model_post_init
    { date := date, download_link := download_link, location := location,
      latitude := latitude, longitude := longitude }

/--
`pathlib.PurePosixPath(p).name`: the last path component, after dropping
empty components and `.` components.
-/
def pathName (p : String) : String :=
  let segs := (p.splitOn "/").filter (fun s => s ≠ "" && s ≠ ".")
  segs.getLast?.getD ""

/--
CPython `PurePath.suffix` of a file name: the substring from the last `.`,
provided that dot is neither the first nor the last character.
-/
def pathSuffixOf (name : String) : String :=
  let l := name.toList
  match l.reverse.findIdx? (fun c => c = '.') with
  | none => ""
  | some r =>
    let i := l.length - 1 - r
    if 0 < i ∧ i < l.length - 1 then String.mk (l.drop i) else ""

/-- `Path(cdn_url.split("?")[0]).suffix or ".jpg"` from `download_memory`. -/
def extFromUrl (cdn_url : String) : String :=
  let sfx := pathSuffixOf (pathName (((cdn_url.splitOn "?").headD "")))
  if sfx = "" then ".jpg" else sfx

/-- The two ways an `httpx` request can fail in this program. -/
inductive HttpxError where
  /-- `raise_for_status` raised `httpx.HTTPStatusError` for a non-2xx code. -/
  | statusError (code : Nat) (msg : String)
  /-- any other exception (timeout, connection reset, ...). -/
  | transport (msg : String)
deriving Repr, DecidableEq

/-- The mutable fields of an `exif.Image` that `add_exif_data` touches. -/
structure ExifImage where
  datetime_original : String := ""
  datetime_digitized : String := ""
  datetime : String := ""
  gps_latitude : ℚ × ℚ × ℚ := (0, 0, 0)
  gps_latitude_ref : String := ""
  gps_longitude : ℚ × ℚ × ℚ := (0, 0, 0)
  gps_longitude_ref : String := ""
deriving Repr, DecidableEq

/--
Oracle environment for the external collaborators of the fetch path.  Each
field models one fallible effectful step, quantified over in the theorems.
-/
structure Env where
  /-- the POST of `get_cdn_url`: `.ok` is `response.text` after a 2xx. -/
  post : String → Except HttpxError String
  /-- the GET of the CDN URL: `.ok (status_code, content)` after a 2xx. -/
  get : String → Except HttpxError (Nat × String)
  /-- `write_bytes` / `os.utime` on the output path; `some msg` = it raised. -/
  writeFail : String → Option String
  /-- `open` + `exif.Image(f)`; may raise. -/
  exifRead : String → Except String ExifImage
  /-- `img.get_file()` + the write-back; `.ok` is the new file content. -/
  exifSerialize : ExifImage → Except String String

/-- `get_cdn_url`: POST the download link, then `response.text.strip()`. -/
def get_cdn_url (env : Env) (download_link : String) : Except HttpxError String :=
  match env.post download_link with
  | .ok text => .ok text.trim
  | .error e => .error e

/-- `decimal_to_dms` from `add_exif_data` (on rationals; `int` truncates). -/
def decimal_to_dms (decimal : ℚ) : ℚ × ℚ × ℚ :=
  let degrees : Nat := ⌊|decimal|⌋.toNat
  let minutes_decimal : ℚ := (|decimal| - degrees) * 60
  let minutes : Nat := ⌊minutes_decimal⌋.toNat
  let seconds : ℚ := (minutes_decimal - minutes) * 60
  ((degrees : ℚ), (minutes : ℚ), seconds)

/-- The body of `add_exif_data`'s `try` block; any step may fail. -/
def add_exif_data_go (env : Env) (image_path : String) (memory : MemoryRec) :
    Except String String := do
  let img ← env.exifRead image_path
  let dt_str := strftimeExif memory.date
  let img := { img with datetime_original := dt_str, datetime_digitized := dt_str,
                        datetime := dt_str }
  let img :=
    match memory.latitude, memory.longitude with
    | some la, some lo =>
      { img with gps_latitude := decimal_to_dms la,
                 gps_latitude_ref := if 0 ≤ la then "N" else "S",
                 gps_longitude := decimal_to_dms lo,
                 gps_longitude_ref := if 0 ≤ lo then "E" else "W" }
    | _, _ => img
  env.exifSerialize img

/--
`add_exif_data`: the whole body is wrapped in `try ... except Exception: pass`,
so every internal failure is absorbed.  Returns the new file content when the
rewrite succeeded, `none` when the file was left as it was.
-/
def add_exif_data (env : Env) (image_path : String) (memory : MemoryRec) :
    Option String :=
  match add_exif_data_go env image_path memory with
  | .ok c => some c
  | .error _ => none

/--
`download_memory`: resolve the CDN URL, derive the extension and output path,
GET the content, write it, optionally patch EXIF data, and return the tuple
`(success, bytes, filename_or_error, status_code)`.  The second component of
the result is the list of file writes performed (path, final content).
`except httpx.HTTPStatusError` keeps the status code; `except Exception`
returns `None` for it.  The semaphore only gates admission and has no effect
on the outcome, so it is not modelled.
-/
def download_memory (env : Env) (memory : MemoryRec) (output_dir : String)
    (add_exif : Bool) : (Bool × Nat × String × Option Nat) × List (String × String) :=
  match get_cdn_url env memory.download_link with
  | .error (.statusError code msg) => ((false, 0, msg, some code), [])
  | .error (.transport msg) => ((false, 0, msg, none), [])
  | .ok cdn_url =>
    let ext := extFromUrl cdn_url
    let filename := memory.filename ++ ext
    let output_path := output_dir ++ "/" ++ filename
    match env.get cdn_url with
    | .error (.statusError code msg) => ((false, 0, msg, some code), [])
    | .error (.transport msg) => ((false, 0, msg, none), [])
    | .ok (status_code, content) =>
      match env.writeFail output_path with
      | some msg => ((false, 0, msg, none), [])
      | none =>
        let finalContent :=
          if add_exif ∧ ext = ".jpg" then
            match add_exif_data env output_path memory with
            | some c => c
            | none => content
          else content
        ((true, content.length, filename, some status_code),
          [(output_path, finalContent)])

/-- `DownloadStats`: the shared counters of one run. -/
structure DStats where
  downloaded : Nat := 0
  skipped : Nat := 0
  failed : Nat := 0
  total : Nat := 0
  mb : ℚ := 0
  current_file : String := ""
deriving Repr, DecidableEq

/--
The `process_memory` closure of `_download_async`, for one item: if the
cancellation flag (`self.is_downloading`) is already cleared the item is
abandoned with `(False, None)` and the stats are untouched; otherwise the
item's `download_memory` result (here an oracle value, since the network is
external) updates the stats and `(success, status_code)` is returned.
-/
def process_memory (is_downloading : Bool)
    (dmResult : Bool × Nat × String × Option Nat) (stats : DStats) :
    (Bool × Option Nat) × DStats :=
  if is_downloading = false then ((false, none), stats)
  else
    let (success, bytes_downloaded, result, status_code) := dmResult
    let stats :=
      if success then
        { stats with downloaded := stats.downloaded + 1,
                     mb := stats.mb + (bytes_downloaded : ℚ) / 1024 / 1024,
                     current_file := result }
      else
        { stats with failed := stats.failed + 1,
                     current_file := "Error: " ++ result.take 30 ++ "..." }
    ((success, status_code), stats)

/--
`failures = sum(1 for r in results if r and not r[0])`.  Each `r` is a
nonempty tuple, hence always truthy, so only `not r[0]` decides.
-/
def countFailures (results : List (Bool × Option Nat)) : Nat :=
  (results.filter (fun r => !r.1)).length

/-- `rate_limit_hits = any((r and r[1] == 429) for r in results)`. -/
def rateLimitHits (results : List (Bool × Option Nat)) : Bool :=
  results.any (fun r => r.2 == some 429)

/-- `min_concurrency = 1` — the floor of the concurrency window. -/
def min_concurrency : Nat := 1

/--
The auto-tuning step of `_download_async` (the body of `if auto_tune:`):
given the completed batch's length, failure count, rate-limit flag and
elapsed seconds, compute the next concurrency level.  `elapsed` is a
rational model of the float `time.perf_counter()` difference.
-/
def nextConcurrency (max_concurrent current_concurrency batchLen failures : Nat)
    (rate_limit_hits : Bool) (elapsed : ℚ) : Nat :=
  let denom : ℚ := ((max batchLen 1 : Nat) : ℚ)
  let avg_time : ℚ := elapsed / denom
  if rate_limit_hits then
    max min_concurrency
      (if current_concurrency / 2 = 0 then 1 else current_concurrency / 2)
  else if ((failures : ℚ) / denom) > 3 / 10 then
    max min_concurrency (current_concurrency - 1)
  else if failures = 0 ∧ rate_limit_hits = false ∧ avg_time < 3 / 2 ∧
      current_concurrency < max_concurrent then
    min max_concurrent (current_concurrency + 1)
  else
    current_concurrency

/--
The existing-file test of the filter loop:
`skip_existing and (jpg_path.exists() or mp4_path.exists())`, where the two
paths are `output_dir / f"{memory.filename}.jpg"` and `.mp4`.  `fileGone`
(`fileExists`) abstracts the state of the output directory at call time.
-/
def shouldSkip (skip_existing : Bool) (fileExists : String → Bool)
    (output_dir : String) (memory : MemoryRec) : Bool :=
  skip_existing &&
    (fileExists (output_dir ++ "/" ++ memory.filename ++ ".jpg") ||
     fileExists (output_dir ++ "/" ++ memory.filename ++ ".mp4"))

/--
The "Filter existing files" loop of `_download_async`: returns
`(stats.skipped, to_download)` — records already present only bump the
skipped counter, the rest are queued in order.
-/
def filterExisting (skip_existing : Bool) (fileExists : String → Bool)
    (output_dir : String) : List MemoryRec → Nat × List MemoryRec
  | [] => (0, [])
  | memory :: rest =>
    let r := filterExisting skip_existing fileExists output_dir rest
    if shouldSkip skip_existing fileExists output_dir memory
    then (r.1 + 1, r.2)
    else (r.1, memory :: r.2)

/--
One batch of `asyncio.gather(*[process_memory(m, semaphore) for m in batch])`:
items are the global queue indices `i, i+1, ..., i+n-1`.  `flagItem i` is the
value of `self.is_downloading` observed at item `i`'s check; `dm i` is the
`download_memory` outcome the network would produce for item `i`.  Returns
(results list, indices whose fetch was actually launched, updated stats).
Stat updates are additive, so folding them in queue order loses nothing.
-/
def runBatchItems (flagItem : Nat → Bool)
    (dm : Nat → Bool × Nat × String × Option Nat) :
    Nat → Nat → DStats → List (Bool × Option Nat) × List Nat × DStats
  | _, 0, stats => ([], [], stats)
  | i, n + 1, stats =>
    let pr := process_memory (flagItem i) (dm i) stats
    let rest := runBatchItems flagItem dm (i + 1) n pr.2
    (pr.1 :: rest.1, (if flagItem i then [i] else []) ++ rest.2.1, rest.2.2)

/-- Observable trace of one run of the batch loop. -/
structure RunTrace where
  /-- final `DownloadStats`. -/
  stats : DStats
  /-- the concurrency level (semaphore size) used for each batch, in order. -/
  concs : List Nat
  /-- global indices of the items whose `download_memory` call was started. -/
  launched : List Nat
deriving Repr, DecidableEq

/--
The batch loop of `_download_async` (`while idx < total_to_download and
self.is_downloading:`), with the per-batch clamp, the gather, the outcome
aggregation and the auto-tune step.  `flagLoop idx` is the value of
`self.is_downloading` at the loop check reached with queue position `idx`;
`elapsedAt idx` is that batch's elapsed seconds.  The fuel argument only
bounds recursion; any fuel at least `total - idx` reaches the true exit, and
running out of fuel returns the same value as the loop exit does.
-/
def runBatches (auto_tune : Bool) (max_concurrent total : Nat)
    (flagLoop : Nat → Bool) (flagItem : Nat → Bool)
    (dm : Nat → Bool × Nat × String × Option Nat) (elapsedAt : Nat → ℚ) :
    Nat → Nat → Nat → DStats → RunTrace
  | 0, _, _, stats => ⟨stats, [], []⟩
  | fuel + 1, idx, current_concurrency, stats =>
    if idx < total ∧ flagLoop idx = true then
      let used := max (min current_concurrency (total - idx)) 1
      let batchLen := min used (total - idx)
      let b := runBatchItems flagItem dm idx batchLen stats
      let failures := countFailures b.1
      let rl := rateLimitHits b.1
      let nextConc :=
        if auto_tune then
          nextConcurrency max_concurrent used batchLen failures rl (elapsedAt idx)
        else used
      let rest := runBatches auto_tune max_concurrent total flagLoop flagItem dm
        elapsedAt fuel (idx + batchLen) nextConc b.2.2
      ⟨rest.stats, used :: rest.concs, b.2.1 ++ rest.launched⟩
    else ⟨stats, [], []⟩

/--
The download phase of `_download_async` after the JSON load and year filter:
build the initial stats, partition against the output directory, and drive
the batch loop with `current_concurrency = max(1, min(max_concurrent,
total_to_download))`.
-/
def downloadRun (auto_tune : Bool) (max_concurrent : Nat) (skip_existing : Bool)
    (fileExists : String → Bool) (output_dir : String)
    (memories : List MemoryRec) (flagLoop : Nat → Bool) (flagItem : Nat → Bool)
    (dm : Nat → Bool × Nat × String × Option Nat) (elapsedAt : Nat → ℚ) :
    RunTrace :=
  let f := filterExisting skip_existing fileExists output_dir memories
  let stats0 : DStats := { total := memories.length, skipped := f.1 }
  let total := f.2.length
  runBatches auto_tune max_concurrent total flagLoop flagItem dm elapsedAt
    total 0 (max 1 (min max_concurrent total)) stats0

/-- The filter loop computes the skipped count and the pending queue as the
two complementary filters of the input list. -/
theorem filterExisting_eq (se : Bool) (fe : String → Bool) (dir : String)
    (l : List MemoryRec) :
    filterExisting se fe dir l =
      ((l.filter (shouldSkip se fe dir)).length,
        l.filter (fun m => !shouldSkip se fe dir m)) := by
  induction l with
  | nil => rfl
  | cons m rest ih =>
    by_cases h : shouldSkip se fe dir m <;>
      simp [filterExisting, ih, List.filter_cons, h]

/--
Claim C1: with auto-tuning enabled, the next concurrency level is computed by
exactly one rule, in priority order: a 429 in the batch halves `current`
(integer division, floor 1) and skips the other rules; else a failure ratio
above 0.30 decrements `current` by exactly 1 bounded at the floor; else a
zero-failure, non-rate-limited batch averaging under 1.5 s/item with
`current` below the ceiling increments `current` by exactly 1; else `current`
is unchanged.
-/
theorem c1_autotune_priority_rules (max_concurrent current batchLen failures : Nat)
    (rate_limit_hits : Bool) (elapsed : ℚ) (hb : 1 ≤ batchLen) :
    (rate_limit_hits = true →
      nextConcurrency max_concurrent current batchLen failures rate_limit_hits elapsed
        = max 1 (current / 2))
  ∧ (rate_limit_hits = false →
      (failures : ℚ) / (batchLen : ℚ) > 3 / 10 →
      nextConcurrency max_concurrent current batchLen failures rate_limit_hits elapsed
        = max 1 (current - 1))
  ∧ (rate_limit_hits = false → failures = 0 →
      elapsed / (batchLen : ℚ) < 3 / 2 → current < max_concurrent →
      nextConcurrency max_concurrent current batchLen failures rate_limit_hits elapsed
        = current + 1)
  ∧ (rate_limit_hits = false →
      ¬((failures : ℚ) / (batchLen : ℚ) > 3 / 10) →
      ¬(failures = 0 ∧ elapsed / (batchLen : ℚ) < 3 / 2 ∧ current < max_concurrent) →
      nextConcurrency max_concurrent current batchLen failures rate_limit_hits elapsed
        = current) := by
  have hmax : max batchLen 1 = batchLen := Nat.max_eq_left hb
  refine ⟨?_, ?_, ?_, ?_⟩
  · intro h
    simp only [nextConcurrency, min_concurrency, h, if_true]
    by_cases h2 : current / 2 = 0
    · simp [h2]
    · simp [h2]
  · intro h hr
    simp only [nextConcurrency, min_concurrency, hmax, h]
    rw [if_neg (by simp), if_pos hr]
  · intro h hf ha hc
    subst h
    subst hf
    simp only [nextConcurrency, min_concurrency, hmax]
    rw [if_neg (by simp), if_neg (by push_cast; norm_num),
      if_pos (by exact ⟨trivial, trivial, ha, hc⟩)]
    omega
  · intro h hr h3
    simp only [nextConcurrency, min_concurrency, hmax, h]
    rw [if_neg (by simp), if_neg hr, if_neg (by tauto)]

/-- Witness for C1 at a concrete batch: 5 items, 2 failures, a 429 observed,
`current = 4` is halved to 2. -/
theorem c1_autotune_priority_rules_witness :
    1 ≤ 5 ∧ nextConcurrency 40 4 5 2 true 0 = max 1 (4 / 2) :=
  ⟨by decide, (c1_autotune_priority_rules 40 4 5 2 true 0 (by decide)).1 rfl⟩

/--
Claim C3: the existing-file filter puts a record in the skip partition iff
skip-existing is enabled and `canonical_name.jpg` or `canonical_name.mp4`
exists in the output directory; with the option disabled every record is
pending; skip and pending together contain every record exactly once.
-/
theorem c3_existing_file_filter_partition (se : Bool) (fe : String → Bool)
    (dir : String) (mems : List MemoryRec) :
    ((filterExisting se fe dir mems).2
        = mems.filter (fun m => !shouldSkip se fe dir m)
      ∧ (filterExisting se fe dir mems).1
        = (mems.filter (shouldSkip se fe dir)).length)
  ∧ (∀ m, m ∈ mems.filter (shouldSkip se fe dir) ↔
      m ∈ mems ∧ (se = true ∧
        (fe (dir ++ "/" ++ m.filename ++ ".jpg") = true ∨
         fe (dir ++ "/" ++ m.filename ++ ".mp4") = true)))
  ∧ (∀ m, m ∈ (filterExisting se fe dir mems).2 ↔
      m ∈ mems ∧ ¬(se = true ∧
        (fe (dir ++ "/" ++ m.filename ++ ".jpg") = true ∨
         fe (dir ++ "/" ++ m.filename ++ ".mp4") = true)))
  ∧ (se = false → filterExisting se fe dir mems = (0, mems))
  ∧ List.Perm
      (mems.filter (shouldSkip se fe dir) ++ (filterExisting se fe dir mems).2)
      mems := by
  have hs : ∀ m, shouldSkip se fe dir m = true ↔
      se = true ∧ (fe (dir ++ "/" ++ m.filename ++ ".jpg") = true ∨
        fe (dir ++ "/" ++ m.filename ++ ".mp4") = true) := by
    intro m
    simp [shouldSkip, Bool.and_eq_true, Bool.or_eq_true]
  refine ⟨⟨by rw [filterExisting_eq], by rw [filterExisting_eq]⟩, ?_, ?_, ?_, ?_⟩
  · intro m
    rw [List.mem_filter, hs]
  · intro m
    rw [filterExisting_eq]
    simp only [List.mem_filter, Bool.not_eq_true', ← hs]
    simp
  · intro h
    subst h
    rw [filterExisting_eq]
    simp [shouldSkip]
  · rw [filterExisting_eq]
    exact List.filter_append_perm _ mems

/-- Witness for C3: with skip-existing disabled nothing is skipped and the
whole record list is pending. -/
theorem c3_existing_file_filter_partition_witness :
    filterExisting false (fun _ => true) "out"
        [{ date := ⟨2020, 1, 2, 3, 4, 5⟩, download_link := "a" }]
      = (0, [{ date := ⟨2020, 1, 2, 3, 4, 5⟩, download_link := "a" }]) :=
  (c3_existing_file_filter_partition false (fun _ => true) "out"
    [{ date := ⟨2020, 1, 2, 3, 4, 5⟩, download_link := "a" }]).2.2.2.1 rfl

/--
Claim C9: an item abandoned because cancellation was observed before its
fetch began still contributes `(False, None)` to the batch's result list
(leaving the stats untouched and launching nothing), and that entry is
counted as a failure by the failure count the auto-tuning policy consumes.
-/
theorem c9_abandoned_item_counts_as_batch_failure :
    (∀ dmResult stats, process_memory false dmResult stats = ((false, none), stats))
  ∧ (∀ rs1 rs2, countFailures (rs1 ++ (false, none) :: rs2)
      = countFailures (rs1 ++ rs2) + 1)
  ∧ (∀ (flagItem : Nat → Bool) dm i n stats, flagItem i = false →
      runBatchItems flagItem dm i (n + 1) stats =
        ((false, none) :: (runBatchItems flagItem dm (i + 1) n stats).1,
         (runBatchItems flagItem dm (i + 1) n stats).2.1,
         (runBatchItems flagItem dm (i + 1) n stats).2.2)) := by
  refine ⟨?_, ?_, ?_⟩
  · intro dmResult stats
    simp [process_memory]
  · intro rs1 rs2
    simp [countFailures, List.filter_append]
    omega
  · intro flagItem dm i n stats h
    simp [runBatchItems, h, process_memory]

/-- Witness for C9: a 1-item batch whose item is abandoned yields the result
list `[(false, none)]`, no launch, and unchanged stats. -/
theorem c9_abandoned_item_counts_as_batch_failure_witness :
    runBatchItems (fun _ => false) (fun _ => (true, 7, "x", some 200)) 0 1 {} =
      ((false, none) ::
        (runBatchItems (fun _ => false) (fun _ => (true, 7, "x", some 200)) 1 0 {}).1,
       (runBatchItems (fun _ => false) (fun _ => (true, 7, "x", some 200)) 1 0 {}).2.1,
       (runBatchItems (fun _ => false) (fun _ => (true, 7, "x", some 200)) 1 0 {}).2.2) :=
  c9_abandoned_item_counts_as_batch_failure.2.2
    (fun _ => false) (fun _ => (true, 7, "x", some 200)) 0 0 {} rfl

/--
Claim C8: a record constructed from archive input whose location string
matches the "lat, lon" numeric pattern (with `float`-parsable groups) and
whose latitude and longitude are unset gets both coordinates parsed at
construction time; the construction fully determines every field of the
resulting record, and nothing in this development produces a modified copy
afterwards.
-/
theorem c8_coordinates_parsed_at_construction (date : PyDateTime)
    (link loc g1 g2 : String) (a b : ℚ)
    (hs : regexSearch loc = some (g1, g2))
    (h1 : parseFloatQ g1 = some a) (h2 : parseFloatQ g2 = some b) :
    mkMemory date link loc none none =
      Except.ok { date := date, download_link := link, location := loc,
                  latitude := some a, longitude := some b } := by
  have hloc : loc ≠ "" := by
    intro h
    subst h
    simp [regexSearch, searchFrom, String.toList] at hs
  simp [mkMemory, model_post_init, latFalsy, hs, h1, h2, hloc]

/--
Claim C10: the coordinate parse attempt at construction runs exactly when the
location string is non-empty and the latitude field is falsy (`None` or
`0.0`), and the whole decision never inspects the longitude field: for every
record, either the parse fires and the result is a fixed record independent
of the input longitude, or the record passes through with its longitude kept,
or construction fails — uniformly in the longitude.  In particular a record
with `latitude = 0.0` (or with longitude set but latitude unset) and a
matching location string has both coordinates overwritten.
-/
theorem c10_parse_guard_ignores_longitude (m : MemoryRec) :
    ((m.location = "" ∨ latFalsy m.latitude = false) →
      model_post_init m = Except.ok m)
  ∧ (m.location ≠ "" → latFalsy m.latitude = true →
      ∀ g1 g2 a b, regexSearch m.location = some (g1, g2) →
        parseFloatQ g1 = some a → parseFloatQ g2 = some b →
        model_post_init m =
          Except.ok { m with latitude := some a, longitude := some b })
  ∧ ((∃ a b, ∀ l, model_post_init { m with longitude := l } =
        Except.ok { m with latitude := some a, longitude := some b })
     ∨ (∀ l, model_post_init { m with longitude := l } =
        Except.ok { m with longitude := l })
     ∨ (∀ l, ∃ e, model_post_init { m with longitude := l } = Except.error e)) := by
  refine ⟨?_, ?_, ?_⟩
  · intro h
    have hg : ¬(m.location ≠ "" ∧ latFalsy m.latitude = true) := by
      rcases h with h | h
      · exact fun hc => hc.1 h
      · intro hc
        rw [h] at hc
        exact absurd hc.2 (by decide)
    simp only [model_post_init]
    rw [if_neg hg]
  · intro hne hf g1 g2 a b hs h1 h2
    simp [model_post_init, hne, hf, hs, h1, h2]
  · by_cases hg : m.location ≠ "" ∧ latFalsy m.latitude = true
    · rcases hre : regexSearch m.location with _ | ⟨g1, g2⟩
      · right; left
        intro l
        simp [model_post_init, hg.1, hg.2, hre]
      · rcases hp1 : parseFloatQ g1 with _ | a
        · right; right
          intro l
          refine ⟨"ValueError: could not convert string to float", ?_⟩
          simp [model_post_init, hg.1, hg.2, hre, hp1]
        · rcases hp2 : parseFloatQ g2 with _ | b
          · right; right
            intro l
            refine ⟨"ValueError: could not convert string to float", ?_⟩
            simp [model_post_init, hg.1, hg.2, hre, hp1, hp2]
          · left
            refine ⟨a, b, fun l => ?_⟩
            simp [model_post_init, hg.1, hg.2, hre, hp1, hp2]
    · right; left
      intro l
      have hg' : ¬(({ m with longitude := l } : MemoryRec).location ≠ "" ∧
          latFalsy ({ m with longitude := l } : MemoryRec).latitude = true) := hg
      simp only [model_post_init]
      rw [if_neg hg']

/-- Witness for C8: constructing a record from `"1.5, 2.5"` with unset
coordinates parses both groups at construction time. -/
theorem c8_coordinates_parsed_at_construction_witness :
    mkMemory ⟨2020, 1, 2, 3, 4, 5⟩ "L" "1.5, 2.5" none none =
      Except.ok { date := ⟨2020, 1, 2, 3, 4, 5⟩, download_link := "L",
                  location := "1.5, 2.5",
                  latitude := some ((parseFloatQ "1.5").getD 0),
                  longitude := some ((parseFloatQ "2.5").getD 0) } :=
  c8_coordinates_parsed_at_construction ⟨2020, 1, 2, 3, 4, 5⟩ "L" "1.5, 2.5"
    "1.5" "2.5" _ _ (by decide) rfl rfl

/-- Witness for C10: a record with `latitude = 0.0` (falsy) and a longitude
already set still has both coordinates overwritten from the location string. -/
theorem c10_parse_guard_ignores_longitude_witness :
    model_post_init
        { date := ⟨2020, 1, 2, 3, 4, 5⟩, download_link := "L",
          location := "1.5, 2.5", latitude := some 0, longitude := some 9 } =
      Except.ok
        { date := ⟨2020, 1, 2, 3, 4, 5⟩, download_link := "L",
          location := "1.5, 2.5",
          latitude := some ((parseFloatQ "1.5").getD 0),
          longitude := some ((parseFloatQ "2.5").getD 0) } :=
  (c10_parse_guard_ignores_longitude
      { date := ⟨2020, 1, 2, 3, 4, 5⟩, download_link := "L",
        location := "1.5, 2.5", latitude := some 0, longitude := some 9 }).2.1
    (by decide) (by decide) "1.5" "2.5" _ _ (by decide) rfl rfl

/--
Claim C4: every failure mode of the per-item fetch — non-2xx on the
link-resolution POST, non-2xx on the content GET, or a transport error on
either call — becomes a returned outcome with `success = false` (the model
`download_memory` is a total function, so nothing escapes the boundary), and
an HTTP status error carries its status code into the outcome, so a 429 stays
distinguishable from other failures.
-/
theorem c4_fetch_failures_become_outcomes (env : Env) (memory : MemoryRec)
    (output_dir : String) (add_exif : Bool) :
    (∀ code msg, env.post memory.download_link = .error (.statusError code msg) →
      (download_memory env memory output_dir add_exif).1 = (false, 0, msg, some code))
  ∧ (∀ msg, env.post memory.download_link = .error (.transport msg) →
      (download_memory env memory output_dir add_exif).1 = (false, 0, msg, none))
  ∧ (∀ text code msg, env.post memory.download_link = .ok text →
      env.get text.trim = .error (.statusError code msg) →
      (download_memory env memory output_dir add_exif).1 = (false, 0, msg, some code))
  ∧ (∀ text msg, env.post memory.download_link = .ok text →
      env.get text.trim = .error (.transport msg) →
      (download_memory env memory output_dir add_exif).1 = (false, 0, msg, none)) := by
  refine ⟨?_, ?_, ?_, ?_⟩
  · intro code msg h
    simp [download_memory, get_cdn_url, h]
  · intro msg h
    simp [download_memory, get_cdn_url, h]
  · intro text code msg hp hg
    simp [download_memory, get_cdn_url, hp, hg]
  · intro text msg hp hg
    simp [download_memory, get_cdn_url, hp, hg]

/-- Witness for C4: a POST answered with HTTP 429 yields the outcome
`(false, 0, msg, some 429)`. -/
theorem c4_fetch_failures_become_outcomes_witness :
    (download_memory
        ⟨fun _ => Except.error (.statusError 429 "Too Many Requests"),
         fun _ => Except.error (.transport "t"), fun _ => none,
         fun _ => Except.error "e", fun _ => Except.error "e"⟩
        { date := ⟨2020, 1, 2, 3, 4, 5⟩, download_link := "L" } "out" true).1
      = (false, 0, "Too Many Requests", some 429) :=
  (c4_fetch_failures_become_outcomes
      ⟨fun _ => Except.error (.statusError 429 "Too Many Requests"),
       fun _ => Except.error (.transport "t"), fun _ => none,
       fun _ => Except.error "e", fun _ => Except.error "e"⟩
      { date := ⟨2020, 1, 2, 3, 4, 5⟩, download_link := "L" } "out" true).1
    429 "Too Many Requests" rfl

/--
Claim C6: on a successful fetch the extension is derived from the CDN URL's
path — the part before any `?`, with `.jpg` as the default when the path has
no extension — and the output path is the output directory joined with
`canonical_name + ext`, where `canonical_name` is the record's timestamp
formatted `YYYY-MM-DD_HH-MM-SS`.
-/
theorem c6_output_path_from_cdn_url (env : Env) (memory : MemoryRec)
    (output_dir : String) (add_exif : Bool) (text : String) (st : Nat)
    (content : String)
    (hp : env.post memory.download_link = .ok text)
    (hg : env.get text.trim = .ok (st, content))
    (hw : env.writeFail
        (output_dir ++ "/" ++ (memory.filename ++ extFromUrl text.trim)) = none) :
    ((download_memory env memory output_dir add_exif).1.2.2.1
        = memory.filename ++ extFromUrl text.trim)
  ∧ ((download_memory env memory output_dir add_exif).2.map Prod.fst
        = [output_dir ++ "/" ++ (memory.filename ++ extFromUrl text.trim)])
  ∧ memory.filename = strftimeFileStem memory.date
  ∧ (pathSuffixOf (pathName ((text.trim.splitOn "?").headD "")) = "" →
      extFromUrl text.trim = ".jpg")
  ∧ (∀ s, pathSuffixOf (pathName ((text.trim.splitOn "?").headD "")) = s →
      s ≠ "" → extFromUrl text.trim = s) := by
  refine ⟨?_, ?_, rfl, ?_, ?_⟩
  · simp [download_memory, get_cdn_url, hp, hg, hw]
  · simp [download_memory, get_cdn_url, hp, hg, hw]
  · intro h
    simp only [extFromUrl]
    rw [if_pos h]
  · intro s h hne
    simp only [extFromUrl]
    rw [h, if_neg hne]

/-- Witness for C6: a CDN URL ending in `/y.mp4?sig=abc` produces the
filename `canonical_name ++ extFromUrl url` and one write at
`out/canonical_name.ext`. -/
theorem c6_output_path_from_cdn_url_witness :
    ((download_memory
        ⟨fun _ => Except.ok "https://cdn/x/y.mp4?sig=abc",
         fun _ => Except.ok (200, "DATA"), fun _ => none,
         fun _ => Except.error "e", fun _ => Except.error "e"⟩
        { date := ⟨2020, 1, 2, 3, 4, 5⟩, download_link := "L" } "out" false).1.2.2.1
      = ({ date := ⟨2020, 1, 2, 3, 4, 5⟩, download_link := "L" } : MemoryRec).filename
          ++ extFromUrl ("https://cdn/x/y.mp4?sig=abc").trim) :=
  (c6_output_path_from_cdn_url
      ⟨fun _ => Except.ok "https://cdn/x/y.mp4?sig=abc",
       fun _ => Except.ok (200, "DATA"), fun _ => none,
       fun _ => Except.error "e", fun _ => Except.error "e"⟩
      { date := ⟨2020, 1, 2, 3, 4, 5⟩, download_link := "L" } "out" false
      "https://cdn/x/y.mp4?sig=abc" 200 "DATA" rfl rfl rfl).1

/--
Claim C7: the metadata post-processor absorbs every internal failure — the
outcome tuple of `download_memory` is independent of the behaviour of the
EXIF collaborators, a successful fetch returns `success = true` no matter
what they do, and any error of the post-processor's body is swallowed by its
`except Exception: pass`.
-/
theorem c7_exif_failure_never_fails_download
    (post : String → Except HttpxError String)
    (get : String → Except HttpxError (Nat × String))
    (writeFail : String → Option String)
    (er er' : String → Except String ExifImage)
    (es es' : ExifImage → Except String String)
    (memory : MemoryRec) (output_dir : String) (add_exif : Bool) :
    ((download_memory ⟨post, get, writeFail, er, es⟩ memory output_dir add_exif).1
      = (download_memory ⟨post, get, writeFail, er', es'⟩ memory output_dir add_exif).1)
  ∧ (∀ env path m e, add_exif_data_go env path m = .error e →
      add_exif_data env path m = none)
  ∧ (∀ text st content,
      post memory.download_link = .ok text →
      get text.trim = .ok (st, content) →
      writeFail (output_dir ++ "/" ++ (memory.filename ++ extFromUrl text.trim))
        = none →
      (download_memory ⟨post, get, writeFail, er, es⟩ memory output_dir
        add_exif).1.1 = true) := by
  refine ⟨?_, ?_, ?_⟩
  · rcases hp : post memory.download_link with e | text
    · rcases e with ⟨code, msg⟩ | msg <;> simp [download_memory, get_cdn_url, hp]
    · rcases hg : get text.trim with e | ⟨st, content⟩
      · rcases e with ⟨code, msg⟩ | msg <;>
          simp [download_memory, get_cdn_url, hp, hg]
      · rcases hw : writeFail
            (output_dir ++ "/" ++ (memory.filename ++ extFromUrl text.trim)) with
          _ | msg <;> simp [download_memory, get_cdn_url, hp, hg, hw]
  · intro env path m e h
    simp [add_exif_data, h]
  · intro text st content hp hg hw
    simp [download_memory, get_cdn_url, hp, hg, hw]

/-- Witness for C7: with both EXIF collaborators failing, a successful fetch
of a `.jpg` still returns `success = true`. -/
theorem c7_exif_failure_never_fails_download_witness :
    (download_memory
        ⟨fun _ => Except.ok "https://cdn/x/y.jpg",
         fun _ => Except.ok (200, "DATA"), fun _ => none,
         fun _ => Except.error "exif read failed",
         fun _ => Except.error "exif write failed"⟩
        { date := ⟨2020, 1, 2, 3, 4, 5⟩, download_link := "L" } "out" true).1.1
      = true :=
  (c7_exif_failure_never_fails_download
      (fun _ => Except.ok "https://cdn/x/y.jpg")
      (fun _ => Except.ok (200, "DATA")) (fun _ => none)
      (fun _ => Except.error "exif read failed")
      (fun _ => Except.error "exif read failed")
      (fun _ => Except.error "exif write failed")
      (fun _ => Except.error "exif write failed")
      { date := ⟨2020, 1, 2, 3, 4, 5⟩, download_link := "L" } "out" true).2.2
    "https://cdn/x/y.jpg" 200 "DATA" rfl rfl rfl

/-- The auto-tuning step keeps the concurrency level inside
`[min_concurrency, max_concurrent]`. -/
theorem nextConcurrency_bounds (max_concurrent current batchLen failures : Nat)
    (rate_limit_hits : Bool) (elapsed : ℚ) (hm : 1 ≤ max_concurrent)
    (h1 : 1 ≤ current) (h2 : current ≤ max_concurrent) :
    1 ≤ nextConcurrency max_concurrent current batchLen failures rate_limit_hits
        elapsed ∧
    nextConcurrency max_concurrent current batchLen failures rate_limit_hits
        elapsed ≤ max_concurrent := by
  simp only [nextConcurrency, min_concurrency]
  split_ifs <;> constructor <;> omega

/-- Every concurrency level the batch loop records stays inside
`[1, max_concurrent]`, for every fuel, position and in-range start value. -/
theorem runBatches_concs_bounds (auto_tune : Bool) (max_concurrent total : Nat)
    (flagLoop flagItem : Nat → Bool)
    (dm : Nat → Bool × Nat × String × Option Nat) (elapsedAt : Nat → ℚ)
    (hm : 1 ≤ max_concurrent) :
    ∀ fuel idx current stats, 1 ≤ current → current ≤ max_concurrent →
      ∀ c ∈ (runBatches auto_tune max_concurrent total flagLoop flagItem dm
          elapsedAt fuel idx current stats).concs,
        1 ≤ c ∧ c ≤ max_concurrent := by
  intro fuel
  induction fuel with
  | zero =>
    intro idx current stats h1 h2 c hc
    simp [runBatches] at hc
  | succ n ih =>
    intro idx current stats h1 h2 c hc
    simp only [runBatches] at hc
    by_cases hcond : idx < total ∧ flagLoop idx = true
    · rw [if_pos hcond] at hc
      dsimp only at hc
      have hused1 : 1 ≤ max (min current (total - idx)) 1 := Nat.le_max_right _ _
      have hused2 : max (min current (total - idx)) 1 ≤ max_concurrent :=
        Nat.max_le.mpr ⟨le_trans (Nat.min_le_left _ _) h2, hm⟩
      rcases List.mem_cons.mp hc with h | h
      · exact ⟨h ▸ hused1, h ▸ hused2⟩
      · by_cases ha : auto_tune = true
        · subst ha
          rw [if_pos rfl] at h
          refine ih _ _ _ ?_ ?_ c h
          · exact (nextConcurrency_bounds _ _ _ _ _ _ hm hused1 hused2).1
          · exact (nextConcurrency_bounds _ _ _ _ _ _ hm hused1 hused2).2
        · rw [Bool.not_eq_true] at ha
          subst ha
          rw [if_neg (by decide)] at h
          exact ih _ _ _ hused1 hused2 c h
    · rw [if_neg hcond] at hc
      simp at hc

/--
Claim C2: in every run, the concurrency level used for each batch lies in
`[floor, ceiling] = [1, max_concurrent]`, and the auto-tuned value after any
batch (increment, decrement or halving) also never leaves that interval.
-/
theorem c2_concurrency_within_bounds (auto_tune : Bool) (max_concurrent : Nat)
    (skip_existing : Bool) (fileExists : String → Bool) (output_dir : String)
    (memories : List MemoryRec) (flagLoop flagItem : Nat → Bool)
    (dm : Nat → Bool × Nat × String × Option Nat) (elapsedAt : Nat → ℚ)
    (hm : 1 ≤ max_concurrent) :
    (∀ c ∈ (downloadRun auto_tune max_concurrent skip_existing fileExists
        output_dir memories flagLoop flagItem dm elapsedAt).concs,
      1 ≤ c ∧ c ≤ max_concurrent)
  ∧ (∀ current batchLen failures rate_limit_hits elapsed,
      1 ≤ current → current ≤ max_concurrent →
      1 ≤ nextConcurrency max_concurrent current batchLen failures
          rate_limit_hits elapsed ∧
      nextConcurrency max_concurrent current batchLen failures rate_limit_hits
          elapsed ≤ max_concurrent) := by
  constructor
  · intro c hc
    dsimp only [downloadRun] at hc
    refine runBatches_concs_bounds auto_tune max_concurrent _ flagLoop flagItem
      dm elapsedAt hm _ _ _ _ (Nat.le_max_left _ _)
      (Nat.max_le.mpr ⟨hm, Nat.min_le_left _ _⟩) c hc
  · intro current batchLen failures rate_limit_hits elapsed h1 h2
    exact nextConcurrency_bounds _ _ _ _ _ _ hm h1 h2

/-- Witness for C2 on a concrete 3-item run with ceiling 2. -/
theorem c2_concurrency_within_bounds_witness :
    1 ≤ 2 ∧
    ∀ c ∈ (downloadRun true 2 false (fun _ => false) "out"
        [{ date := ⟨2020, 1, 2, 3, 4, 5⟩, download_link := "a" },
         { date := ⟨2020, 1, 2, 3, 4, 6⟩, download_link := "b" },
         { date := ⟨2020, 1, 2, 3, 4, 7⟩, download_link := "c" }]
        (fun _ => true) (fun _ => true)
        (fun _ => (false, 0, "boom", some 429)) (fun _ => 1)).concs,
      1 ≤ c ∧ c ≤ 2 :=
  ⟨by decide,
    (c2_concurrency_within_bounds true 2 false (fun _ => false) "out"
      [{ date := ⟨2020, 1, 2, 3, 4, 5⟩, download_link := "a" },
       { date := ⟨2020, 1, 2, 3, 4, 6⟩, download_link := "b" },
       { date := ⟨2020, 1, 2, 3, 4, 7⟩, download_link := "c" }]
      (fun _ => true) (fun _ => true)
      (fun _ => (false, 0, "boom", some 429)) (fun _ => 1) (by decide)).1⟩

/-- If the cancellation flag is already cleared at a loop check, the batch
loop stops at once, returning its stats unchanged with no batches and no
launches. -/
theorem runBatches_cancelled (auto_tune : Bool) (max_concurrent total : Nat)
    (flagLoop flagItem : Nat → Bool)
    (dm : Nat → Bool × Nat × String × Option Nat) (elapsedAt : Nat → ℚ)
    (fuel idx current : Nat) (stats : DStats) (h : flagLoop idx = false) :
    runBatches auto_tune max_concurrent total flagLoop flagItem dm elapsedAt
      fuel idx current stats = ⟨stats, [], []⟩ := by
  cases fuel with
  | zero => simp [runBatches]
  | succ n =>
    simp only [runBatches]
    rw [if_neg]
    intro hc
    rw [h] at hc
    exact absurd hc.2 (by decide)

/--
Claim C5: if cancellation is requested before any batch starts, the run
terminates with `downloaded = 0`, `failed = 0`, `skipped` equal to the count
precomputed by the existing-file filter, and no item fetch is ever launched
(no batch runs at all).
-/
theorem c5_cancel_before_first_batch (auto_tune : Bool) (max_concurrent : Nat)
    (skip_existing : Bool) (fileExists : String → Bool) (output_dir : String)
    (memories : List MemoryRec) (flagLoop flagItem : Nat → Bool)
    (dm : Nat → Bool × Nat × String × Option Nat) (elapsedAt : Nat → ℚ)
    (h : flagLoop 0 = false) :
    (downloadRun auto_tune max_concurrent skip_existing fileExists output_dir
        memories flagLoop flagItem dm elapsedAt).stats.downloaded = 0
  ∧ (downloadRun auto_tune max_concurrent skip_existing fileExists output_dir
        memories flagLoop flagItem dm elapsedAt).stats.failed = 0
  ∧ (downloadRun auto_tune max_concurrent skip_existing fileExists output_dir
        memories flagLoop flagItem dm elapsedAt).stats.skipped
      = (filterExisting skip_existing fileExists output_dir memories).1
  ∧ (downloadRun auto_tune max_concurrent skip_existing fileExists output_dir
        memories flagLoop flagItem dm elapsedAt).launched = []
  ∧ (downloadRun auto_tune max_concurrent skip_existing fileExists output_dir
        memories flagLoop flagItem dm elapsedAt).concs = [] := by
  dsimp only [downloadRun]
  rw [runBatches_cancelled _ _ _ _ _ _ _ _ _ _ _ h]
  exact ⟨rfl, rfl, rfl, rfl, rfl⟩

/-- Witness for C5: a cancelled-before-start run over one record downloads
nothing, fails nothing, and launches nothing. -/
theorem c5_cancel_before_first_batch_witness :
    (downloadRun true 4 true (fun _ => false) "out"
        [{ date := ⟨2020, 1, 2, 3, 4, 5⟩, download_link := "a" }]
        (fun _ => false) (fun _ => true)
        (fun _ => (true, 7, "x", some 200)) (fun _ => 1)).stats.downloaded = 0
  ∧ (downloadRun true 4 true (fun _ => false) "out"
        [{ date := ⟨2020, 1, 2, 3, 4, 5⟩, download_link := "a" }]
        (fun _ => false) (fun _ => true)
        (fun _ => (true, 7, "x", some 200)) (fun _ => 1)).stats.failed = 0
  ∧ (downloadRun true 4 true (fun _ => false) "out"
        [{ date := ⟨2020, 1, 2, 3, 4, 5⟩, download_link := "a" }]
        (fun _ => false) (fun _ => true)
        (fun _ => (true, 7, "x", some 200)) (fun _ => 1)).stats.skipped
      = (filterExisting true (fun _ => false) "out"
          [{ date := ⟨2020, 1, 2, 3, 4, 5⟩, download_link := "a" }]).1
  ∧ (downloadRun true 4 true (fun _ => false) "out"
        [{ date := ⟨2020, 1, 2, 3, 4, 5⟩, download_link := "a" }]
        (fun _ => false) (fun _ => true)
        (fun _ => (true, 7, "x", some 200)) (fun _ => 1)).launched = []
  ∧ (downloadRun true 4 true (fun _ => false) "out"
        [{ date := ⟨2020, 1, 2, 3, 4, 5⟩, download_link := "a" }]
        (fun _ => false) (fun _ => true)
        (fun _ => (true, 7, "x", some 200)) (fun _ => 1)).concs = [] :=
  c5_cancel_before_first_batch true 4 true (fun _ => false) "out"
    [{ date := ⟨2020, 1, 2, 3, 4, 5⟩, download_link := "a" }]
    (fun _ => false) (fun _ => true)
    (fun _ => (true, 7, "x", some 200)) (fun _ => 1) rfl
